import Mathlib

/-!
Verification of the SAGAN training code (src/v1/SAGAN).

The numeric kernel of the repository is embedded shallowly:
tensors become lists of rationals or explicitly-shaped index
functions over the rationals, the training loop becomes an explicit
trace over epoch and step counters, and the gradient bookkeeping of
the discriminator phase becomes a ledger of backward-pass
contributions.  Real arithmetic of the Python code is modelled over
the rationals.
-/

/-! ## Instance-noise annealing (sagan.py, SAGAN.train, lines 168-171)

Python:
  inst_noise_sigma_curr = 0 if step > self.inst_noise_sigma_iters else (
      1 - step/self.inst_noise_sigma_iters)*self.inst_noise_sigma
-/

/-- Annealed instance-noise standard deviation at a given (per-epoch) step,
mirroring sagan.py lines 169-170. -/
def inst_noise_sigma_curr (step iters : ℕ) (sigma : ℚ) : ℚ :=
  if iters < step then 0 else (1 - (step : ℚ) / (iters : ℚ)) * sigma

/-! ## Hinge losses and utilities (layers.py, lines 102-148)

Tensors are modelled as lists of rationals; torch.mean is the sum
divided by the length, F.relu is max with 0, clamp_(0, 1) is the
two-sided clamp used by denorm. -/

/-- torch.mean over a flat tensor. -/
def tmean (l : List ℚ) : ℚ := l.sum / l.length

/-- F.relu on one scalar element. -/
def reluq (q : ℚ) : ℚ := max 0 q

/-- layers.py lines 102-105: mean(relu(1.0 - d_real)). -/
def loss_hinge_dis_real (d_real : List ℚ) : ℚ :=
  tmean (d_real.map (fun q => reluq (1 - q)))

/-- layers.py lines 108-111: mean(relu(1.0 + d_fake)). -/
def loss_hinge_dis_fake (d_fake : List ℚ) : ℚ :=
  tmean (d_fake.map (fun q => reluq (1 + q)))

/-- layers.py lines 114-117: -mean(d_fake). -/
def loss_hinge_gen (d_fake : List ℚ) : ℚ :=
  -(tmean d_fake)

/-- Tensor.clamp_(lo, hi) on one scalar element. -/
def clampq (lo hi q : ℚ) : ℚ := min (max q lo) hi

/-- layers.py lines 145-148: out = (x + 1) / 2; out.clamp_(0, 1). -/
def denorm (x : List ℚ) : List ℚ :=
  (x.map (fun q => (q + 1) / 2)).map (fun q => clampq 0 1 q)

/-! ## Gradient bookkeeping of the discriminator phase
(sagan.py, SAGAN.reset_grad lines 117-120 and SAGAN.train lines 175-206)

Gradients are modelled as ledgers of backward-pass contributions:
each backward() call appends a tagged contribution to the ledger of
every network it reaches.  d_loss_real.backward() reaches only D
(real_images carries no grad); d_loss_fake.backward() reaches both D
and G through fake_images = G(z). The d_optimizer.step() at line 206
consumes whatever ledger D holds at that point. -/

/-- One backward-pass contribution, tagged with the d_iters iteration
index it came from and whether it was the real-image or the
fake-image hinge loss. -/
inductive Pass where
  | realPass : ℕ → Pass
  | fakePass : ℕ → Pass
deriving DecidableEq, Repr

/-- Gradient ledgers of the two networks. -/
structure Grads where
  d : List Pass
  g : List Pass
deriving DecidableEq, Repr

/-- sagan.py lines 117-120: zero the gradients of both optimizers. -/
def reset_grad (_ : Grads) : Grads := { d := [], g := [] }

/-- One iteration of the discriminator loop body, sagan.py lines
176-203: reset_grad; d_loss_real.backward() (into D only);
d_loss_fake.backward() (into D and, through the generator output,
into G). -/
def d_iter_body (i : ℕ) (s : Grads) : Grads :=
  let s1 := reset_grad s
  let s2 := { s1 with d := s1.d ++ [Pass.realPass i] }
  { s2 with d := s2.d ++ [Pass.fakePass i], g := s2.g ++ [Pass.fakePass i] }

/-- The whole discriminator phase, sagan.py lines 175-203:
for _ in range(self.d_iters): ... -/
def d_phase (dIters : ℕ) (s : Grads) : Grads :=
  (List.range dIters).foldl (fun acc i => d_iter_body i acc) s

/-! ## Training-loop schedule (sagan.py, SAGAN.train, lines 122-171)

Python:
  step_per_epoch = len(self.dataloader)
  epochs = int(self.total_steps / step_per_epoch)
  start_epoch = self.pretrained_model if self.pretrained_model else 0
  for epoch in range(start_epoch, epochs):
      for step in range(step_per_epoch):
          ... inst_noise_sigma_curr computed from step ...
-/

/-- Configuration fields of SAGAN.__init__ that drive the loop shape. -/
structure TrainCfg where
  total_steps : ℕ
  step_per_epoch : ℕ
  pretrained_model : Option ℕ
  inst_noise_sigma : ℚ
  inst_noise_sigma_iters : ℕ
deriving Repr

/-- sagan.py line 124: epochs = int(total_steps / step_per_epoch). -/
def epochs (cfg : TrainCfg) : ℕ := cfg.total_steps / cfg.step_per_epoch

/-- sagan.py lines 133-136: resume epoch, 0 when no pretrained model. -/
def start_epoch (cfg : TrainCfg) : ℕ := cfg.pretrained_model.getD 0

/-- sagan.py line 144: the epoch indices range(start_epoch, epochs). -/
def epochSchedule (cfg : TrainCfg) : List ℕ :=
  List.range' (start_epoch cfg) (epochs cfg - start_epoch cfg)

/-- The (epoch, step, noise sigma) triples visited by the nested loops
of SAGAN.train, lines 144-171: the step counter restarts from 0 at
each epoch and the annealed sigma is computed from that counter. -/
def trainTrace (cfg : TrainCfg) : List (ℕ × ℕ × ℚ) :=
  (epochSchedule cfg).flatMap (fun epoch =>
    (List.range cfg.step_per_epoch).map (fun step =>
      (epoch, step,
        inst_noise_sigma_curr step cfg.inst_noise_sigma_iters cfg.inst_noise_sigma)))

/-! ## Checkpointing (sagan.py, lines 90-112 and 287-301)

State dicts and optimizer state dicts are modelled as opaque payloads
of rational-valued entries keyed by name; torch.save/torch.load of a
path is modelled as an association list from filename to checkpoint
bundle (the serialization itself is a thin wrapper and is assumed
faithful). -/

/-- A network state_dict: named parameter tensors (flattened). -/
abbrev StateDict := List (String × List ℚ)

/-- An optimizer state_dict: Adam moments and step counts (flattened). -/
abbrev OptState := List (String × List ℚ)

/-- The mutable orchestrator state that checkpointing touches. -/
structure SAGANState where
  G : StateDict
  D : StateDict
  g_optimizer : OptState
  d_optimizer : OptState
  ave_d_losses : List ℚ
  ave_d_losses_real : List ℚ
  ave_d_losses_fake : List ℚ
  ave_d_gamma1 : List ℚ
  ave_d_gamma2 : List ℚ
  ave_g_losses : List ℚ
  ave_g_gamma1 : List ℚ
  ave_g_gamma2 : List ℚ
deriving DecidableEq

/-- The dictionary written by torch.save in sagan.py lines 288-301. -/
structure Checkpoint where
  gen_state_dict : StateDict
  disc_state_dict : StateDict
  gen_optimizer : OptState
  disc_optimizer : OptState
  ave_d_losses : List ℚ
  ave_d_losses_real : List ℚ
  ave_d_losses_fake : List ℚ
  ave_d_gamma1 : List ℚ
  ave_d_gamma2 : List ℚ
  ave_g_losses : List ℚ
  ave_g_gamma1 : List ℚ
  ave_g_gamma2 : List ℚ
deriving DecidableEq

/-- Filename pattern of sagan.py lines 93 and 301. -/
def ckptFilename (epoch : ℕ) : String := toString epoch ++ "_sagan.pth"

/-- The bundle assembled by torch.save at sagan.py lines 288-301. -/
def saveBundle (s : SAGANState) : Checkpoint :=
  { gen_state_dict := s.G
    disc_state_dict := s.D
    gen_optimizer := s.g_optimizer
    disc_optimizer := s.d_optimizer
    ave_d_losses := s.ave_d_losses
    ave_d_losses_real := s.ave_d_losses_real
    ave_d_losses_fake := s.ave_d_losses_fake
    ave_d_gamma1 := s.ave_d_gamma1
    ave_d_gamma2 := s.ave_d_gamma2
    ave_g_losses := s.ave_g_losses
    ave_g_gamma1 := s.ave_g_gamma1
    ave_g_gamma2 := s.ave_g_gamma2 }

/-- sagan.py lines 287-301: writing the checkpoint of epoch+1 into the
model directory (the directory is an association list of filenames). -/
def saveModel (epoch : ℕ) (s : SAGANState) (dir : List (String × Checkpoint)) :
    List (String × Checkpoint) :=
  (ckptFilename (epoch + 1), saveBundle s) :: dir

/-- sagan.py lines 90-112, SAGAN.load_pretrained: look up the file
named after the pretrained epoch and overwrite every persisted field
of the state; a missing file is fatal (none). -/
def load_pretrained (pretrained : ℕ) (dir : List (String × Checkpoint))
    (s : SAGANState) : Option SAGANState :=
  (dir.lookup (ckptFilename pretrained)).map (fun c =>
    { s with
      G := c.gen_state_dict
      D := c.disc_state_dict
      g_optimizer := c.gen_optimizer
      d_optimizer := c.disc_optimizer
      ave_d_losses := c.ave_d_losses
      ave_d_losses_real := c.ave_d_losses_real
      ave_d_losses_fake := c.ave_d_losses_fake
      ave_d_gamma1 := c.ave_d_gamma1
      ave_d_gamma2 := c.ave_d_gamma2
      ave_g_losses := c.ave_g_losses
      ave_g_gamma1 := c.ave_g_gamma1
      ave_g_gamma2 := c.ave_g_gamma2 })

/-! ## Self-attention module (layers.py, lines 56-96)

A 4-d tensor [b, c, w, h] is an explicit shape together with a total
index function into the rationals; a 3-d tensor is the same for
[B, N, M]. view follows the contiguous row-major layout used by
torch.Tensor.view, permute(0, 2, 1) swaps the last two axes, bmm is
the batched matrix product, and softmax(dim=-1) normalizes each row
by the row sum of exponentials.  The exponential itself is an
arbitrary parameter of the model: every theorem below holds for any
exponential function. -/

/-- A [b, c, w, h] feature map. -/
@[ext]
structure Tensor4 where
  b : ℕ
  c : ℕ
  w : ℕ
  h : ℕ
  data : ℕ → ℕ → ℕ → ℕ → ℚ

/-- A [B, N, M] batched matrix. -/
@[ext]
structure Tensor3 where
  b : ℕ
  n : ℕ
  m : ℕ
  data : ℕ → ℕ → ℕ → ℚ

/-- A 1x1 convolution (layers.py lines 9-11): per-pixel affine map
across channels, with bias. -/
structure Conv1x1 where
  inC : ℕ
  outC : ℕ
  weight : ℕ → ℕ → ℚ
  bias : ℕ → ℚ

/-- Applying a 1x1 convolution to a feature map. -/
def Conv1x1.apply (m : Conv1x1) (x : Tensor4) : Tensor4 :=
  { b := x.b, c := m.outC, w := x.w, h := x.h
    data := fun bi oc wi hi =>
      m.bias oc + ∑ ic ∈ Finset.range m.inC, m.weight oc ic * x.data bi ic wi hi }

/-- Tensor.view(b, -1, N) on a contiguous [b, c, w, h] map with
N = w*h: channels stay, the two spatial axes flatten row-major. -/
def view3 (x : Tensor4) : Tensor3 :=
  { b := x.b, n := x.c, m := x.w * x.h
    data := fun bi ci ni => x.data bi ci (ni / x.h) (ni % x.h) }

/-- Tensor.view(b, c, w, h) on a contiguous [b, c, N] tensor with
N = w*h, the inverse reshaping. -/
def view4 (x : Tensor3) (b c w h : ℕ) : Tensor4 :=
  { b := b, c := c, w := w, h := h
    data := fun bi ci wi hi => x.data bi ci (wi * h + hi) }

/-- Tensor.permute(0, 2, 1). -/
def permute021 (x : Tensor3) : Tensor3 :=
  { b := x.b, n := x.m, m := x.n
    data := fun bi i j => x.data bi j i }

/-- torch.bmm: batched matrix product. -/
def bmm (x y : Tensor3) : Tensor3 :=
  { b := x.b, n := x.n, m := y.m
    data := fun bi i j => ∑ k ∈ Finset.range x.m, x.data bi i k * y.data bi k j }

/-- nn.Softmax(dim=-1) over the last axis, with the exponential
function exp as an explicit parameter of the numeric model. -/
def softmax3 (exp : ℚ → ℚ) (x : Tensor3) : Tensor3 :=
  { b := x.b, n := x.n, m := x.m
    data := fun bi i j =>
      exp (x.data bi i j) / ∑ k ∈ Finset.range x.m, exp (x.data bi i k) }

/-- The SelfAttn module state (layers.py lines 59-70). -/
structure SelfAttn where
  channels : ℕ
  f : Conv1x1
  g : Conv1x1
  h : Conv1x1
  v : Conv1x1
  gamma : ℚ

/-- SelfAttn.__init__ (layers.py lines 59-70): k = channels // 8;
f, g project to k channels, h to channels // 2, v back to channels;
gamma starts at zero. -/
def SelfAttn.init (channels : ℕ)
    (wf : ℕ → ℕ → ℚ) (bf : ℕ → ℚ) (wg : ℕ → ℕ → ℚ) (bg : ℕ → ℚ)
    (wh : ℕ → ℕ → ℚ) (bh : ℕ → ℚ) (wv : ℕ → ℕ → ℚ) (bv : ℕ → ℚ) : SelfAttn :=
  { channels := channels
    f := { inC := channels, outC := channels / 8, weight := wf, bias := bf }
    g := { inC := channels, outC := channels / 8, weight := wg, bias := bg }
    h := { inC := channels, outC := channels / 2, weight := wh, bias := bh }
    v := { inC := channels / 2, outC := channels, weight := wv, bias := bv }
    gamma := 0 }

/-- SelfAttn.forward (layers.py lines 72-96), step by step:
f = self.f(x).view(b, -1, N).permute(0, 2, 1); g = self.g(x).view(b, -1, N);
h = self.h(x).view(b, -1, N); transpose = torch.bmm(f, g);
beta = self.softmax(transpose).permute(0, 2, 1); out = torch.bmm(h, beta);
out = self.v(out.view(b, c//2, width, height)); out = self.gamma*out + x. -/
def SelfAttn.forward (m : SelfAttn) (exp : ℚ → ℚ) (x : Tensor4) : Tensor4 :=
  let f := permute021 (view3 (m.f.apply x))
  let g := view3 (m.g.apply x)
  let h := view3 (m.h.apply x)
  let transpose := bmm f g
  let beta := permute021 (softmax3 exp transpose)
  let out := bmm h beta
  let outv := m.v.apply (view4 out x.b (x.c / 2) x.w x.h)
  { b := outv.b, c := outv.c, w := outv.w, h := outv.h
    data := fun bi ci wi hi => m.gamma * outv.data bi ci wi hi + x.data bi ci wi hi }

/-! ## Concrete sample inputs used by the witnesses -/

/-- Sample configuration used by loop witnesses. -/
def cfgEx : TrainCfg :=
  { total_steps := 10, step_per_epoch := 3, pretrained_model := none
    inst_noise_sigma := 1 / 2, inst_noise_sigma_iters := 4 }

/-- Sample input tensor for the self-attention witnesses. -/
def xEx : Tensor4 :=
  { b := 1, c := 8, w := 2, h := 2
    data := fun bi ci wi hi => ((bi + ci + wi + hi : ℕ) : ℚ) }

/-- All-ones sample convolution weights. -/
def wOne : ℕ → ℕ → ℚ := fun _ _ => 1

/-- All-ones sample convolution bias. -/
def bOne : ℕ → ℚ := fun _ => 1

/-- Sample freshly initialized 8-channel self-attention module. -/
def attnEx : SelfAttn := SelfAttn.init 8 wOne bOne wOne bOne wOne bOne wOne bOne

/-! ## Shared helper lemmas -/

/-- The annealed sigma at step 0 is the configured sigma. -/
theorem inst_noise_sigma_curr_zero (iters : ℕ) (sigma : ℚ) :
    inst_noise_sigma_curr 0 iters sigma = sigma := by
  simp [inst_noise_sigma_curr]

/-- tmean of a list of non-negative rationals is non-negative. -/
theorem tmean_nonneg (l : List ℚ) (h : ∀ q ∈ l, 0 ≤ q) : 0 ≤ tmean l := by
  unfold tmean
  exact div_nonneg (List.sum_nonneg h) (Nat.cast_nonneg _)

/-- tmean of a list of zeros is zero. -/
theorem tmean_zero (l : List ℚ) (h : ∀ q ∈ l, q = 0) : tmean l = 0 := by
  unfold tmean
  rw [List.sum_eq_zero h, zero_div]

/-- The summed length of a constant-length family. -/
theorem sum_map_const_nat {α : Type} (l : List α) (k : ℕ) :
    (l.map (fun _ => k)).sum = l.length * k := by
  induction l with
  | nil => simp
  | cons a tl ih => simp [ih]; ring

/-- One unrolling of the discriminator phase. -/
theorem d_phase_succ (n : ℕ) (s : Grads) :
    d_phase (n + 1) s = d_iter_body n (d_phase n s) := by
  unfold d_phase
  rw [List.range_succ, List.foldl_append]
  rfl

/-! ## Claim theorems -/

/-- C1: the annealed instance-noise standard deviation equals the
configured sigma at step 0, is non-increasing in the step index,
follows the linear ramp sigma*(iters - step)/iters up to the horizon,
and is exactly 0 at and after the decay horizon. -/
theorem inst_noise_anneal_correct (sigma : ℚ) (iters : ℕ)
    (hs : 0 ≤ sigma) (hi : 0 < iters) :
    inst_noise_sigma_curr 0 iters sigma = sigma
    ∧ (∀ s t : ℕ, s ≤ t →
        inst_noise_sigma_curr t iters sigma ≤ inst_noise_sigma_curr s iters sigma)
    ∧ (∀ s : ℕ, s ≤ iters →
        inst_noise_sigma_curr s iters sigma = sigma * ((iters : ℚ) - s) / iters)
    ∧ (∀ s : ℕ, iters ≤ s → inst_noise_sigma_curr s iters sigma = 0) := by
  have hiq : (0 : ℚ) < (iters : ℚ) := by exact_mod_cast hi
  have hform : ∀ s : ℕ, s ≤ iters →
      inst_noise_sigma_curr s iters sigma = sigma * ((iters : ℚ) - s) / iters := by
    intro s hsle
    unfold inst_noise_sigma_curr
    rw [if_neg (by omega)]
    field_simp
    ring
  have hnonneg : ∀ s : ℕ, 0 ≤ inst_noise_sigma_curr s iters sigma := by
    intro s
    by_cases hcase : iters < s
    · unfold inst_noise_sigma_curr
      rw [if_pos hcase]
    · have hsle : s ≤ iters := Nat.le_of_not_lt hcase
      rw [hform s hsle]
      have hle : (s : ℚ) ≤ (iters : ℚ) := by exact_mod_cast hsle
      have hnum : (0 : ℚ) ≤ (iters : ℚ) - s := by linarith
      positivity
  refine ⟨inst_noise_sigma_curr_zero iters sigma, ?_, hform, ?_⟩
  · intro s t hst
    by_cases ht : iters < t
    · have hzero : inst_noise_sigma_curr t iters sigma = 0 := by
        unfold inst_noise_sigma_curr
        rw [if_pos ht]
      rw [hzero]
      exact hnonneg s
    · have htle : t ≤ iters := Nat.le_of_not_lt ht
      have hsle : s ≤ iters := le_trans hst htle
      rw [hform t htle, hform s hsle]
      have hstq : (s : ℚ) ≤ (t : ℚ) := by exact_mod_cast hst
      have hsub : (iters : ℚ) - t ≤ (iters : ℚ) - s := by linarith
      exact (div_le_div_iff_of_pos_right hiq).mpr (mul_le_mul_of_nonneg_left hsub hs)
  · intro s hges
    by_cases hcase : iters < s
    · unfold inst_noise_sigma_curr
      rw [if_pos hcase]
    · have hse : s = iters := by omega
      rw [hse, hform iters le_rfl]
      simp

/-- Witness for C1 at sigma = 1, iters = 4. -/
theorem inst_noise_anneal_correct_witness :
    (0 : ℚ) ≤ 1 ∧ 0 < 4
    ∧ inst_noise_sigma_curr 0 4 (1 : ℚ) = 1
    ∧ inst_noise_sigma_curr 6 4 (1 : ℚ) = 0 :=
  ⟨by norm_num, by norm_num,
   (inst_noise_anneal_correct 1 4 (by norm_num) (by norm_num)).1,
   (inst_noise_anneal_correct 1 4 (by norm_num) (by norm_num)).2.2.2 6 (by norm_num)⟩

/-- C6: loss_hinge_dis_real equals mean(relu(1 - d_real)), is
non-negative, and vanishes when every discriminator score is at
least 1. -/
theorem loss_hinge_dis_real_spec (d_real : List ℚ) :
    loss_hinge_dis_real d_real = tmean (d_real.map (fun q => reluq (1 - q)))
    ∧ 0 ≤ loss_hinge_dis_real d_real
    ∧ ((∀ q ∈ d_real, 1 ≤ q) → loss_hinge_dis_real d_real = 0) := by
  refine ⟨rfl, ?_, ?_⟩
  · apply tmean_nonneg
    intro q hq
    rcases List.mem_map.mp hq with ⟨r, _, rfl⟩
    exact le_max_left 0 _
  · intro hall
    apply tmean_zero
    intro q hq
    rcases List.mem_map.mp hq with ⟨r, hr, rfl⟩
    have h1 : 1 - r ≤ 0 := by linarith [hall r hr]
    simpa [reluq] using h1

/-- Witness for C6 at d_real = [2, 3]. -/
theorem loss_hinge_dis_real_spec_witness :
    0 ≤ loss_hinge_dis_real [2, 3] ∧ loss_hinge_dis_real [2, 3] = 0 :=
  ⟨(loss_hinge_dis_real_spec [2, 3]).2.1,
   (loss_hinge_dis_real_spec [2, 3]).2.2 (by norm_num)⟩

/-- C7: loss_hinge_gen is the negated mean, hence strictly decreasing
in the mean of its input. -/
theorem loss_hinge_gen_spec (a b : List ℚ) (hab : tmean a < tmean b) :
    (∀ l : List ℚ, loss_hinge_gen l = -(tmean l))
    ∧ loss_hinge_gen b < loss_hinge_gen a := by
  refine ⟨fun _ => rfl, ?_⟩
  unfold loss_hinge_gen
  linarith

/-- Witness for C7 at a = [0], b = [1]. -/
theorem loss_hinge_gen_spec_witness :
    loss_hinge_gen [1] < loss_hinge_gen [0] :=
  (loss_hinge_gen_spec [0] [1] (by norm_num [tmean])).2

/-- C10: every element of denorm x lies in [0, 1]. -/
theorem denorm_range (x : List ℚ) (q : ℚ) (hq : q ∈ denorm x) :
    0 ≤ q ∧ q ≤ 1 := by
  unfold denorm at hq
  rcases List.mem_map.mp hq with ⟨r, _, rfl⟩
  unfold clampq
  exact ⟨le_min (le_max_right r 0) zero_le_one, min_le_right _ 1⟩

/-- Witness for C10: the element of denorm [5] is 1 and lies in
[0, 1]. -/
theorem denorm_range_witness : (0 : ℚ) ≤ 1 ∧ (1 : ℚ) ≤ 1 :=
  denorm_range [5] 1 (by norm_num [denorm, clampq])

/-- C2: for every d_iters >= 1, at the single d_optimizer.step() the
discriminator ledger holds exactly one real-pass and one fake-pass
backward contribution, both from an iteration inside the d_iters
window, and the phase result does not depend on any gradient present
before the phase (the phase starts by zeroing both networks). -/
theorem d_phase_step_grads (dIters : ℕ) (s : Grads) (h : 1 ≤ dIters) :
    (d_phase dIters s).d = [Pass.realPass (dIters - 1), Pass.fakePass (dIters - 1)]
    ∧ dIters - 1 < dIters
    ∧ d_phase dIters s = d_phase dIters (reset_grad s) := by
  obtain ⟨k, rfl⟩ : ∃ k, dIters = k + 1 := ⟨dIters - 1, by omega⟩
  have hstep : ∀ t : Grads, d_phase (k + 1) t =
      { d := [Pass.realPass k, Pass.fakePass k], g := [Pass.fakePass k] } := by
    intro t
    rw [d_phase_succ]
    rfl
  refine ⟨?_, by omega, ?_⟩
  · rw [hstep s]
    simp
  · rw [hstep s, hstep (reset_grad s)]

/-- Witness for C2 at d_iters = 2 from empty ledgers. -/
theorem d_phase_step_grads_witness :
    (d_phase 2 { d := [], g := [] }).d = [Pass.realPass 1, Pass.fakePass 1]
    ∧ 1 < 2
    ∧ d_phase 2 { d := [], g := [] } =
        d_phase 2 (reset_grad { d := [], g := [] }) :=
  d_phase_step_grads 2 { d := [], g := [] } (by norm_num)

/-- C5: saving the checkpoint of an epoch and loading it back through
the (epoch+1)_sagan.pth filename restores every persisted field -
both state dicts, both optimizer states and the eight metric
histories - exactly, whatever state the loader starts from. -/
theorem checkpoint_roundtrip (s t : SAGANState) (epoch : ℕ)
    (dir : List (String × Checkpoint)) :
    load_pretrained (epoch + 1) (saveModel epoch s dir) t = some s := by
  unfold load_pretrained saveModel saveBundle
  simp [List.lookup]

/-- C8: with no pretrained model the epoch loop visits exactly
total_steps / step_per_epoch epochs, and the full training trace has
exactly epochs * step_per_epoch entries: termination is purely
iteration-count-bounded. -/
theorem train_loop_epoch_count (cfg : TrainCfg) (h : cfg.pretrained_model = none) :
    (epochSchedule cfg).length = cfg.total_steps / cfg.step_per_epoch
    ∧ (trainTrace cfg).length =
        (cfg.total_steps / cfg.step_per_epoch) * cfg.step_per_epoch := by
  have hlen : (epochSchedule cfg).length = cfg.total_steps / cfg.step_per_epoch := by
    simp [epochSchedule, start_epoch, h, epochs]
  refine ⟨hlen, ?_⟩
  unfold trainTrace
  rw [List.length_flatMap]
  simp only [Function.comp_def, List.length_map, List.length_range]
  rw [sum_map_const_nat, hlen]

/-- Witness for C8 on cfgEx. -/
theorem train_loop_epoch_count_witness :
    (epochSchedule cfgEx).length = cfgEx.total_steps / cfgEx.step_per_epoch
    ∧ (trainTrace cfgEx).length =
        (cfgEx.total_steps / cfgEx.step_per_epoch) * cfgEx.step_per_epoch :=
  train_loop_epoch_count cfgEx rfl

/-- C9: the annealing step counter is the per-epoch one: it restarts
at 0 every epoch, so the very first step of every scheduled epoch
carries the full configured sigma again, however many steps have
already elapsed. -/
theorem noise_sigma_restarts_each_epoch (cfg : TrainCfg) (e : ℕ)
    (he : e ∈ epochSchedule cfg) (hspe : 0 < cfg.step_per_epoch) :
    inst_noise_sigma_curr 0 cfg.inst_noise_sigma_iters cfg.inst_noise_sigma =
      cfg.inst_noise_sigma
    ∧ (e, 0, cfg.inst_noise_sigma) ∈ trainTrace cfg := by
  refine ⟨inst_noise_sigma_curr_zero _ _, ?_⟩
  unfold trainTrace
  refine List.mem_flatMap.mpr ⟨e, he, List.mem_map.mpr ⟨0, List.mem_range.mpr hspe, ?_⟩⟩
  rw [inst_noise_sigma_curr_zero]

/-- Witness for C9: epoch 2 of cfgEx (two full epochs already ran)
still opens at the full sigma. -/
theorem noise_sigma_restarts_each_epoch_witness :
    inst_noise_sigma_curr 0 cfgEx.inst_noise_sigma_iters cfgEx.inst_noise_sigma =
      cfgEx.inst_noise_sigma
    ∧ (2, 0, cfgEx.inst_noise_sigma) ∈ trainTrace cfgEx :=
  noise_sigma_restarts_each_epoch cfgEx 2
    (by norm_num [epochSchedule, epochs, start_epoch, cfgEx, List.range'])
    (by norm_num [cfgEx])

/-- C3: with the gate gamma at its initialization value 0, the
self-attention module returns its input unchanged, for every input
whose channel count matches the module and for every exponential. -/
theorem selfAttn_init_identity (ch : ℕ)
    (wf : ℕ → ℕ → ℚ) (bf : ℕ → ℚ) (wg : ℕ → ℕ → ℚ) (bg : ℕ → ℚ)
    (wh : ℕ → ℕ → ℚ) (bh : ℕ → ℚ) (wv : ℕ → ℕ → ℚ) (bv : ℕ → ℚ)
    (e : ℚ → ℚ) (x : Tensor4) (hc : x.c = ch) :
    (SelfAttn.init ch wf bf wg bg wh bh wv bv).gamma = 0
    ∧ (SelfAttn.init ch wf bf wg bg wh bh wv bv).forward e x = x := by
  refine ⟨rfl, ?_⟩
  apply Tensor4.ext
  · rfl
  · exact hc.symm
  · rfl
  · rfl
  · funext bi ci wi hi
    show (0 : ℚ) * _ + x.data bi ci wi hi = x.data bi ci wi hi
    ring

/-- Witness for C3 on an 8-channel module with all-ones weights. -/
theorem selfAttn_init_identity_witness :
    attnEx.gamma = 0 ∧ attnEx.forward (fun q => q) xEx = xEx :=
  selfAttn_init_identity 8 wOne bOne wOne bOne wOne bOne wOne bOne
    (fun q => q) xEx rfl

/-- C4: on any input of shape [B, C, W, H] with C divisible by 8 and
matching the module width, the forward pass returns a tensor of
exactly the input shape. -/
theorem selfAttn_shape (ch : ℕ)
    (wf : ℕ → ℕ → ℚ) (bf : ℕ → ℚ) (wg : ℕ → ℕ → ℚ) (bg : ℕ → ℚ)
    (wh : ℕ → ℕ → ℚ) (bh : ℕ → ℚ) (wv : ℕ → ℕ → ℚ) (bv : ℕ → ℚ)
    (e : ℚ → ℚ) (x : Tensor4) (_h8 : ch % 8 = 0) (hc : x.c = ch) :
    ((SelfAttn.init ch wf bf wg bg wh bh wv bv).forward e x).b = x.b
    ∧ ((SelfAttn.init ch wf bf wg bg wh bh wv bv).forward e x).c = x.c
    ∧ ((SelfAttn.init ch wf bf wg bg wh bh wv bv).forward e x).w = x.w
    ∧ ((SelfAttn.init ch wf bf wg bg wh bh wv bv).forward e x).h = x.h :=
  ⟨rfl, hc.symm, rfl, rfl⟩

/-- Witness for C4 on the 8-channel sample input. -/
theorem selfAttn_shape_witness :
    (attnEx.forward (fun q => q) xEx).b = xEx.b
    ∧ (attnEx.forward (fun q => q) xEx).c = xEx.c
    ∧ (attnEx.forward (fun q => q) xEx).w = xEx.w
    ∧ (attnEx.forward (fun q => q) xEx).h = xEx.h :=
  selfAttn_shape 8 wOne bOne wOne bOne wOne bOne wOne bOne
    (fun q => q) xEx (by norm_num) rfl
